import Mathlib

/-!
Shallow embedding of the foodlog data-conversion scripts
(`convert_branded.py`, `convert_fndds.py`, `scripts/process_usda_data.py`)
and proofs about the claims of the specification.

Modelling conventions:
* Python dicts are association lists with CPython semantics: an update of an
  existing key replaces the value in place (keeping the original position),
  a new key is appended at the end.
* CSV cells are strings; where the scripts call `int(...)` or `float(...)`
  on a cell, the row model carries the raw string together with the result
  of that parse (`none` when the parse raises `ValueError`).  Amounts are
  modelled as exact rationals.
* `round(x, n)` is Python's round-half-to-even on the exact rational.
* SQLite tables are lists of row structures; `INSERT OR IGNORE` on a primary
  key skips rows whose key is already present, a plain `INSERT` on a primary
  key fails (`Except.error`) on a duplicate key.
-/

/-- CPython dict update: replace in place if the key exists, else append. -/
def dictInsert {κ α : Type} [DecidableEq κ] (m : List (κ × α)) (k : κ) (v : α) :
    List (κ × α) :=
  if m.any (fun p => decide (p.1 = k)) then
    m.map (fun p => if p.1 = k then (k, v) else p)
  else m ++ [(k, v)]

/-- CPython dict lookup (`d.get(k)`). -/
def dictGet {κ α : Type} [DecidableEq κ] (m : List (κ × α)) (k : κ) : Option α :=
  (m.find? (fun p => decide (p.1 = k))).map Prod.snd

/-- Keys of a dict, in iteration order. -/
def dictKeys {κ α : Type} (m : List (κ × α)) : List κ :=
  m.map Prod.fst

/-- Lookup in a two-level dict of dicts (profile value of field `col` of key `k`). -/
def dictGet2 {κ α : Type} [DecidableEq κ] (m : List (κ × List (String × α)))
    (k : κ) (col : String) : Option α :=
  dictGet ((dictGet m k).getD []) col

/-- Python round-half-to-even of the rational `num / den` (`den > 0`),
written on the integer parts so that it evaluates by kernel reduction. -/
def roundHalfEven (num : Int) (den : Nat) : Int :=
  let q := Int.fdiv num den
  let r := num - q * den
  if 2 * r < (den : Int) then q
  else if (den : Int) < 2 * r then q + 1
  else if q % 2 = 0 then q else q + 1

/-- Python `round(x, 4)` on the exact rational value. -/
def round4 (x : Rat) : Rat := mkRat (roundHalfEven (x.num * 10000) x.den) 10000

/-- Python `round(x, 1)` on the exact rational value. -/
def round1 (x : Rat) : Rat := mkRat (roundHalfEven (x.num * 10) x.den) 10

/-- Stable insertion into a sorted list: the new element goes after every
element that compares `le` to it, so equal elements keep their order. -/
def insertSorted {α : Type} (le : α → α → Bool) (x : α) : List α → List α
  | [] => [x]
  | y :: ys => if le y x then y :: insertSorted le x ys else x :: y :: ys

/-- Stable sort (Python `list.sort` is stable; for a total preorder the
stable sorted permutation is unique, so any stable sort models it). -/
def stableSort {α : Type} (le : α → α → Bool) (l : List α) : List α :=
  l.foldl (fun acc x => insertSorted le x acc) []

/-- Lexicographic comparison of character lists by code point
(Python string `<=`). -/
def strLeChars : List Char → List Char → Bool
  | [], _ => true
  | _ :: _, [] => false
  | a :: as, b :: bs =>
    if a.toNat < b.toNat then true
    else if b.toNat < a.toNat then false
    else strLeChars as bs

/-- Python string `<=`. -/
def pyStrLe (a b : String) : Bool := strLeChars a.data b.data

/-- Python `str.lower()` (ASCII-adequate model). -/
def pyLower (s : String) : String := String.mk (s.data.map Char.toLower)

/-- Python `str.strip()`: drop leading and trailing whitespace.  Written on
the character list so that it evaluates by kernel reduction. -/
def pyStrip (s : String) : String :=
  String.mk (((s.data.dropWhile Char.isWhitespace).reverse.dropWhile
    Char.isWhitespace).reverse)

/-- Least exponent `k ≤ 39` with `den ∣ 10 ^ k` (decimal denominators only). -/
def decExp (den : Nat) : Option Nat :=
  (List.range 40).find? (fun k => 10 ^ k % den = 0)

/-- Pad a digit string with leading zeros up to length `k`. -/
def padZeros (s : String) (k : Nat) : String :=
  if s.length ≥ k then s else String.mk (List.replicate (k - s.length) '0') ++ s

/-- Python `str`/f-string formatting of a float that carries an exact decimal
value: integers render with a trailing `.0`, other decimals render with the
shortest exact fraction part (Python float repr is shortest-round-trip). -/
def pyFloatRepr (q : Rat) : String :=
  match decExp q.den with
  | none => toString q
  | some 0 => toString q.num ++ ".0"
  | some (k+1) =>
    let sign := if q.num < 0 then "-" else ""
    let m := q.num.natAbs * 10 ^ (k+1) / q.den
    sign ++ toString (m / 10 ^ (k+1)) ++ "." ++ padZeros (toString (m % 10 ^ (k+1))) (k+1)

/-! ## Branded pipeline (`convert_branded.py`) -/

/-- A row of `food.csv` as read by `convert_branded.py` (all cells strings). -/
structure BFoodRow where
  fdc_id : String
  data_type : String
  description : String
  deriving DecidableEq

/-- A row of `branded_food.csv`.  `serving_sizeF` is the result of
`float(serving_size)` (`none` on `ValueError`). -/
structure BBrandRow where
  fdc_id : String
  gtin_upc : String
  brand_owner : String
  brand_name : String
  serving_size : String
  serving_sizeF : Option Rat
  serving_size_unit : String
  household_serving_fulltext : String
  deriving DecidableEq

/-- A row of `food_nutrient.csv` for the branded script.  `nutrient_idI` is
the result of `int(nutrient_id)`, `amountF` the result of `float(amount)`. -/
structure BNutRow where
  fdc_id : String
  nutrient_id : String
  nutrient_idI : Option Int
  amount : String
  amountF : Option Rat
  deriving DecidableEq

/-- `NUTRIENT_IDS` of `convert_branded.py`: nutrient id → output column. -/
def NUTRIENT_IDS : List (Int × String) :=
  [(1008, "calories"), (1003, "protein_g"), (1004, "fat_g"), (1005, "carbs_g"),
   (1079, "fiber_g"), (2000, "sugar_g"), (1093, "sodium_mg"), (1258, "saturated_fat_g")]

/-- Column name for a nutrient id (`NUTRIENT_IDS[nutrient_id]` guarded by
`nutrient_id in NUTRIENT_IDS`). -/
def nutrientLookup (nid : Int) : Option String :=
  (NUTRIENT_IDS.find? (fun p => decide (p.1 = nid))).map Prod.snd

/-- Step 1 of `convert_branded.main`: `food_descriptions[fdc_id] = description`
for rows with `data_type == "branded_food"`. -/
def buildFoodDescriptions (rows : List BFoodRow) : List (String × String) :=
  rows.foldl
    (fun m row =>
      if row.data_type = "branded_food" then dictInsert m row.fdc_id row.description
      else m)
    []

/-- The joined per-`fdc_id` product attributes of step 2. -/
structure BrandedInfo where
  barcode : String
  brand : String
  serving_size : Option Rat
  serving_unit : String
  household_serving : String
  deriving DecidableEq

/-- Body of the step-2 loop: `none` when the stripped barcode is empty
(the row is skipped), otherwise the attribute record stored in
`branded_info[fdc_id]`. -/
def projectBrandRow (row : BBrandRow) : Option BrandedInfo :=
  let barcode := pyStrip row.gtin_upc
  if barcode.isEmpty then none
  else
    some ⟨barcode,
      (if (pyStrip row.brand_owner).isEmpty then pyStrip row.brand_name else pyStrip row.brand_owner),
      (if row.serving_size.isEmpty then none else row.serving_sizeF),
      pyStrip row.serving_size_unit,
      pyStrip row.household_serving_fulltext⟩

/-- Step 2 of `convert_branded.main`: `branded_info[fdc_id] = {...}`. -/
def buildBrandedInfo (rows : List BBrandRow) : List (String × BrandedInfo) :=
  rows.foldl
    (fun m row =>
      match projectBrandRow row with
      | none => m
      | some info => dictInsert m row.fdc_id info)
    []

/-- `float(row.get("amount", 0) or 0)` with `ValueError → 0.0`. -/
def brandedAmount (row : BNutRow) : Rat :=
  if row.amount.isEmpty then 0 else row.amountF.getD 0

/-- Body of the step-3 loop of `convert_branded.main` over `food_nutrient.csv`. -/
def stepNutrients (targets : List String)
    (m : List (String × List (String × Rat))) (row : BNutRow) :
    List (String × List (String × Rat)) :=
  if targets.contains row.fdc_id then
    match row.nutrient_idI with
    | none => m
    | some nid =>
      match nutrientLookup nid with
      | none => m
      | some col =>
        dictInsert m row.fdc_id
          (dictInsert ((dictGet m row.fdc_id).getD []) col (brandedAmount row))
  else m

/-- Step 3 of `convert_branded.main`: `nutrients[fdc_id][col_name] = amount`. -/
def buildNutrients (targets : List String) (rows : List BNutRow) :
    List (String × List (String × Rat)) :=
  rows.foldl (stepNutrients targets) []

/-- A row of the `branded_foods` SQLite table. -/
structure BRow where
  barcode : String
  description : String
  brand : Option String
  serving_size : Option Rat
  serving_unit : Option String
  household_serving : Option String
  calories : Rat
  protein_g : Rat
  fat_g : Rat
  carbs_g : Rat
  fiber_g : Rat
  sugar_g : Rat
  sodium_mg : Rat
  saturated_fat_g : Rat
  deriving DecidableEq

/-- Python `s or None` for a string bound to a nullable column. -/
def strOpt (s : String) : Option String :=
  if s.isEmpty then none else some s

/-- `nutr.get(col, 0)`. -/
def nutrGet (nutr : List (String × Rat)) (col : String) : Rat :=
  (dictGet nutr col).getD 0

/-- The tuple bound by the `INSERT OR IGNORE` statement of step 4. -/
def mkBRow (info : BrandedInfo) (description : String) (nutr : List (String × Rat)) :
    BRow :=
  ⟨info.barcode, description, strOpt info.brand, info.serving_size,
   strOpt info.serving_unit, strOpt info.household_serving,
   nutrGet nutr "calories", nutrGet nutr "protein_g", nutrGet nutr "fat_g",
   nutrGet nutr "carbs_g", nutrGet nutr "fiber_g", nutrGet nutr "sugar_g",
   nutrGet nutr "sodium_mg", nutrGet nutr "saturated_fat_g"⟩

/-- `INSERT OR IGNORE` into a table whose primary key is `barcode`. -/
def insertOrIgnore (t : List BRow) (r : BRow) : List BRow :=
  if t.any (fun x => decide (x.barcode = r.barcode)) then t else t ++ [r]

/-- Mutable state of the step-4 write loop of `convert_branded.main`. -/
structure BState where
  table : List BRow
  noDesc : Nat
  noNutr : Nat
  inserted : Nat
  deriving DecidableEq

/-- Body of the step-4 loop over `branded_info.items()`. -/
def bStep (descs : List (String × String))
    (nutrients : List (String × List (String × Rat)))
    (st : BState) (kv : String × BrandedInfo) : BState :=
  let description := (dictGet descs kv.1).getD ""
  if description.isEmpty then ⟨st.table, st.noDesc + 1, st.noNutr, st.inserted⟩
  else
    let nutr := (dictGet nutrients kv.1).getD []
    if nutr.isEmpty then ⟨st.table, st.noDesc, st.noNutr + 1, st.inserted⟩
    else ⟨insertOrIgnore st.table (mkBRow kv.2 description nutr),
          st.noDesc, st.noNutr, st.inserted + 1⟩

/-- Step 4 of `convert_branded.main`: the whole insert loop. -/
def writeBranded (descs : List (String × String))
    (infos : List (String × BrandedInfo))
    (nutrients : List (String × List (String × Rat))) : BState :=
  infos.foldl (bStep descs nutrients) ⟨[], 0, 0, 0⟩

/-- The full branded conversion, from the three parsed CSV files to the
final `branded_foods` table and skip counters. -/
def brandedPipeline (f : List BFoodRow) (b : List BBrandRow) (n : List BNutRow) :
    BState :=
  let descs := buildFoodDescriptions f
  let infos := buildBrandedInfo b
  let nutrients := buildNutrients (infos.map Prod.fst) n
  writeBranded descs infos nutrients

/-! ## Survey pipeline (`convert_fndds.py`) -/

/-- One element of a food's `foodNutrients` array: `nid` is
`n.get("nutrient", {}).get("id")`, `amount` is `n.get("amount", 0)`
(`none` for a missing key, mapped to `0` as in the script). -/
structure FNutrient where
  nid : Option Int
  amount : Option Rat
  deriving DecidableEq

/-- One element of a food's `foodPortions` array. -/
structure FPortion where
  gramWeight : Option Rat
  portionDescription : String
  deriving DecidableEq

/-- One element of the top-level `SurveyFoods` array. -/
structure FFood where
  foodCode : Option Int
  description : String
  foodNutrients : List FNutrient
  foodPortions : List FPortion
  deriving DecidableEq

/-- `NUTRIENT_COLUMNS` of `convert_fndds.py`: nutrient id → SQLite column. -/
def NUTRIENT_COLUMNS : List (Int × String) :=
  [(1008, "energy_kcal"), (1003, "protein_g"), (1004, "fat_g"),
   (1005, "carbohydrate_g"), (1079, "fiber_g"), (2000, "sugar_g"),
   (1258, "saturated_fat_g"), (1292, "monounsaturated_fat_g"),
   (1293, "polyunsaturated_fat_g"), (1253, "cholesterol_mg"),
   (1087, "calcium_mg"), (1089, "iron_mg"), (1090, "magnesium_mg"),
   (1091, "phosphorus_mg"), (1092, "potassium_mg"), (1093, "sodium_mg"),
   (1095, "zinc_mg"), (1098, "copper_mg"), (1103, "selenium_mcg"),
   (1162, "vitamin_c_mg"), (1165, "thiamin_mg"), (1166, "riboflavin_mg"),
   (1167, "niacin_mg"), (1175, "vitamin_b6_mg"), (1190, "folate_dfe_mcg"),
   (1178, "vitamin_b12_mcg"), (1106, "vitamin_a_rae_mcg"),
   (1109, "vitamin_e_mg"), (1114, "vitamin_d_mcg"), (1185, "vitamin_k_mcg"),
   (1057, "caffeine_mg"), (1051, "water_g")]

/-- `nid in NUTRIENT_COLUMNS`. -/
def fnddsHasCol (nid : Int) : Bool :=
  NUTRIENT_COLUMNS.any (fun p => decide (p.1 = nid))

/-- The `nutrient_map` built per food: `nutrient_map[nid] = amount or 0`
for nutrients with a truthy id that is in `NUTRIENT_COLUMNS`. -/
def buildNutrientMap (ns : List FNutrient) : List (Int × Rat) :=
  ns.foldl
    (fun m n =>
      match n.nid with
      | none => m
      | some nid =>
        if nid ≠ 0 ∧ fnddsHasCol nid then dictInsert m nid (n.amount.getD 0) else m)
    []

/-- A row of the `foods` SQLite table: key, description and the 32 nutrient
column values in `NUTRIENT_COLUMNS` order. -/
structure FoodsRow where
  food_code : Int
  description : String
  nvals : List Rat
  deriving DecidableEq

/-- A row of the `portions` SQLite table (the autoincrement id is the list
position). -/
structure PortionsRow where
  food_code : Int
  description : String
  gram_weight : Rat
  deriving DecidableEq

/-- Plain `INSERT` into `foods`, whose primary key is `food_code`: a
duplicate key raises `sqlite3.IntegrityError`. -/
def foodsInsert (t : List FoodsRow) (r : FoodsRow) : Except String (List FoodsRow) :=
  if t.any (fun x => decide (x.food_code = r.food_code)) then
    Except.error "UNIQUE constraint failed: foods.food_code"
  else Except.ok (t ++ [r])

/-- Mutable state of the main loop of `convert_fndds.main`. -/
structure FState where
  foods : List FoodsRow
  portions : List PortionsRow
  fts : List (String × Int)
  food_count : Nat
  portion_count : Nat
  deriving DecidableEq

/-- The `values` tuple inserted into `foods` for one survey food:
key, description, and `nutrient_map.get(nid, 0)` per canonical column. -/
def fnddsFoodRow (food : FFood) : FoodsRow :=
  ⟨food.foodCode.getD 0, food.description,
   NUTRIENT_COLUMNS.map
     (fun p => (dictGet (buildNutrientMap food.foodNutrients) p.1).getD 0)⟩

/-- The portion insert loop of one survey food: guarded by
`gram_weight > 0 and portion_desc`. -/
def fnddsPortions (fc : Int) (ps : List FPortion) (acc : List PortionsRow × Nat) :
    List PortionsRow × Nat :=
  ps.foldl
    (fun acc p =>
      if 0 < p.gramWeight.getD 0 ∧ ¬p.portionDescription.isEmpty then
        (acc.1 ++ [(⟨fc, p.portionDescription, p.gramWeight.getD 0⟩ : PortionsRow)],
         acc.2 + 1)
      else acc)
    acc

/-- `not (not food_code or not nutrients)`: the survey food passes the only
exclusion check of `convert_fndds.main`. -/
def fnddsKeeps (fd : FFood) : Bool :=
  !(decide (fd.foodCode.getD 0 = 0) || fd.foodNutrients.isEmpty)

/-- Body of the loop over `SurveyFoods`: skip when `not food_code or not
nutrients`, else insert the food row, the FTS row and the guarded portions. -/
def fnddsStep (st : FState) (food : FFood) : Except String FState :=
  if food.foodCode.getD 0 = 0 ∨ food.foodNutrients.isEmpty then Except.ok st
  else
    match foodsInsert st.foods (fnddsFoodRow food) with
    | Except.error e => Except.error e
    | Except.ok foods2 =>
      let ports := fnddsPortions (food.foodCode.getD 0) food.foodPortions
        (st.portions, st.portion_count)
      Except.ok ⟨foods2, ports.1, st.fts ++ [(food.description, food.foodCode.getD 0)],
                 st.food_count + 1, ports.2⟩

/-- The loop of `convert_fndds.main`, propagating an SQLite error. -/
def fnddsRunAux : FState → List FFood → Except String FState
  | st, [] => Except.ok st
  | st, food :: rest =>
    match fnddsStep st food with
    | Except.error e => Except.error e
    | Except.ok st2 => fnddsRunAux st2 rest

/-- The full survey conversion from the parsed `SurveyFoods` array. -/
def fnddsRun (foods : List FFood) : Except String FState :=
  fnddsRunAux ⟨[], [], [], 0, 0⟩ foods

/-! ## Reference pipeline (`scripts/process_usda_data.py`) -/

/-- A row of SR Legacy `food.csv`.  `int(fdc_id)` is assumed to succeed
(a failure would abort the run); `food_category_id` is the `int` value of a
non-empty category cell, `none` when the cell is empty. -/
structure UFoodRow where
  fdc_id : Int
  description : String
  food_category_id : Option Int
  deriving DecidableEq

/-- A row of `food_category.csv`. -/
structure UCatRow where
  id : Int
  description : String
  deriving DecidableEq

/-- A row of SR Legacy `food_nutrient.csv`; `amountF` is the result of
`float(amount)` (`none` on `ValueError`). -/
structure UNutRow where
  fdc_id : Int
  nutrient_id : Int
  amount : String
  amountF : Option Rat
  deriving DecidableEq

/-- A row of `food_portion.csv`; `gram_weightF` and `amountF` are the
`float` parse results of the respective cells. -/
structure UPortionRow where
  fdc_id : Int
  modifier : String
  portion_description : String
  gram_weight : String
  gram_weightF : Option Rat
  amount : String
  amountF : Option Rat
  deriving DecidableEq

/-- `NUTRIENT_MAP` of `process_usda_data.py`: nutrient id → field name. -/
def NUTRIENT_MAP : List (Int × String) :=
  [(1008, "calories"), (1004, "totalFat"), (1258, "saturatedFat"),
   (1292, "monounsaturatedFat"), (1293, "polyunsaturatedFat"),
   (1003, "protein"), (1005, "carbohydrates"), (1079, "fiber"),
   (2000, "sugar"), (1253, "cholesterol"), (1106, "vitaminA"),
   (1175, "vitaminB6"), (1178, "vitaminB12"), (1162, "vitaminC"),
   (1114, "vitaminD"), (1109, "vitaminE"), (1185, "vitaminK"),
   (1165, "thiamin"), (1166, "riboflavin"), (1167, "niacin"),
   (1177, "folate"), (1176, "biotin"), (1170, "pantothenicAcid"),
   (1087, "calcium"), (1089, "iron"), (1090, "magnesium"),
   (1101, "manganese"), (1091, "phosphorus"), (1092, "potassium"),
   (1093, "sodium"), (1095, "zinc"), (1096, "chromium"), (1098, "copper"),
   (1100, "iodine"), (1102, "molybdenum"), (1103, "selenium"),
   (1088, "chloride"), (1051, "water"), (1057, "caffeine")]

/-- `NUTRIENT_MAP[nutrient_id]` guarded by `nutrient_id in NUTRIENT_IDS`
(the key set of `NUTRIENT_MAP`). -/
def nutrientFieldU (nid : Int) : Option String :=
  (NUTRIENT_MAP.find? (fun p => decide (p.1 = nid))).map Prod.snd

/-- `load_foods`: `foods[int(fdc_id)] = description`. -/
def uLoadFoods (rows : List UFoodRow) : List (Int × String) :=
  rows.foldl (fun m row => dictInsert m row.fdc_id row.description) []

/-- `load_categories`: `categories[int(id)] = description`. -/
def uLoadCategories (rows : List UCatRow) : List (Int × String) :=
  rows.foldl (fun m row => dictInsert m row.id row.description) []

/-- `load_food_categories`: category id per food, for non-empty cells. -/
def uLoadFoodCats (rows : List UFoodRow) : List (Int × Int) :=
  rows.foldl
    (fun m row =>
      match row.food_category_id with
      | some cid => dictInsert m row.fdc_id cid
      | none => m)
    []

/-- Body of the `load_nutrients` loop: membership reject, canonical-id
lookup, empty/unparseable amount skip, then
`nutrients[fdc_id][field_name] = round(amount, 4)`. -/
def uNutStep (food_ids : List Int) (m : List (Int × List (String × Rat)))
    (row : UNutRow) : List (Int × List (String × Rat)) :=
  if food_ids.contains row.fdc_id then
    match nutrientFieldU row.nutrient_id with
    | none => m
    | some field =>
      if row.amount.isEmpty then m
      else
        match row.amountF with
        | none => m
        | some x =>
          dictInsert m row.fdc_id
            (dictInsert ((dictGet m row.fdc_id).getD []) field (round4 x))
  else m

/-- `load_nutrients` over the whole `food_nutrient.csv`. -/
def uLoadNutrients (food_ids : List Int) (rows : List UNutRow) :
    List (Int × List (String × Rat)) :=
  rows.foldl (uNutStep food_ids) []

/-- One portion entry of the output JSON (`{"desc": ..., "grams": ...}`). -/
structure UPortion where
  desc : String
  grams : Rat
  deriving DecidableEq

/-- Body of the `load_portions` loop. -/
def uPortionStep (food_ids : List Int) (m : List (Int × List UPortion))
    (row : UPortionRow) : List (Int × List UPortion) :=
  if food_ids.contains row.fdc_id then
    let desc := if row.modifier.isEmpty then row.portion_description else row.modifier
    if row.gram_weight.isEmpty ∨ desc.isEmpty then m
    else
      match row.gram_weightF with
      | none => m
      | some grams =>
        let amt := row.amountF.getD 1
        let desc2 :=
          if amt ≠ 1 then
            (if desc.isEmpty then pyFloatRepr amt else pyFloatRepr amt ++ " " ++ desc)
          else desc
        dictInsert m row.fdc_id
          ((dictGet m row.fdc_id).getD [] ++ [⟨pyStrip desc2, round1 grams⟩])
  else m

/-- `load_portions` over the whole `food_portion.csv`. -/
def uLoadPortions (food_ids : List Int) (rows : List UPortionRow) :
    List (Int × List UPortion) :=
  rows.foldl (uPortionStep food_ids) []

/-- One entry of the output `usda_foods.json` array. -/
structure DBEntry where
  id : Int
  name : String
  category : Option String
  nutrients : List (String × Rat)
  portions : Option (List UPortion)
  deriving DecidableEq

/-- The loop of `build_database` over `foods.items()`, before sorting. -/
def buildDbAux (categories : List (Int × String)) (food_cats : List (Int × Int))
    (nutrients : List (Int × List (String × Rat)))
    (portions : List (Int × List UPortion)) :
    List DBEntry → List (Int × String) → List DBEntry
  | db, [] => db
  | db, kv :: rest =>
    match dictGet nutrients kv.1 with
    | none => buildDbAux categories food_cats nutrients portions db rest
    | some nuts =>
      let cat : Option String :=
        match dictGet food_cats kv.1 with
        | some cid => if cid = 0 then none else dictGet categories cid
        | none => none
      buildDbAux categories food_cats nutrients portions
        (db ++ [⟨kv.1, kv.2, cat, nuts, dictGet portions kv.1⟩]) rest

/-- `build_database`: filter foods without nutrient data, attach category
and portions, then the stable sort by lowercased name. -/
def build_database (foods : List (Int × String)) (categories : List (Int × String))
    (food_cats : List (Int × Int)) (nutrients : List (Int × List (String × Rat)))
    (portions : List (Int × List UPortion)) : List DBEntry :=
  stableSort (fun a b => pyStrLe (pyLower a.name) (pyLower b.name))
    (buildDbAux categories food_cats nutrients portions [] foods)

/-- The full reference conversion of `process_usda_data.main` from the four
parsed CSV files to the JSON array. -/
def usdaPipeline (foodRows : List UFoodRow) (catRows : List UCatRow)
    (nutRows : List UNutRow) (portRows : List UPortionRow) : List DBEntry :=
  let foods := uLoadFoods foodRows
  let categories := uLoadCategories catRows
  let food_cats := uLoadFoodCats foodRows
  let nutrients := uLoadNutrients (dictKeys foods) nutRows
  let portions := uLoadPortions (dictKeys foods) portRows
  build_database foods categories food_cats nutrients portions

/-! ## Entry points and the missing-input failure surface -/

/-- Outcome of one script run: process exit code, the diagnostic printed for
a failure, and the content of the output location after the run. -/
structure RunOutcome (σ : Type) where
  exitCode : Nat
  message : Option String
  output : Option σ
  deriving DecidableEq

/-- `os.path.join` for a directory and a relative file name. -/
def pathJoin (d name : String) : String := d ++ "/" ++ name

/-- `convert_branded.main`: each input is `none` when the file is absent at
its expected location.  The existence check of all three inputs runs before
anything touches the output location, so on a missing input the pre-existing
output is returned unchanged. -/
def brandedMain (dataDir : String) (food : Option (List BFoodRow))
    (branded : Option (List BBrandRow)) (nut : Option (List BNutRow))
    (old : Option BState) : RunOutcome BState :=
  if food.isNone then
    ⟨1, some ("ERROR: " ++ pathJoin dataDir "food.csv" ++ " not found"), old⟩
  else if branded.isNone then
    ⟨1, some ("ERROR: " ++ pathJoin dataDir "branded_food.csv" ++ " not found"), old⟩
  else if nut.isNone then
    ⟨1, some ("ERROR: " ++ pathJoin dataDir "food_nutrient.csv" ++ " not found"), old⟩
  else ⟨0, none, some (brandedPipeline (food.getD []) (branded.getD []) (nut.getD []))⟩

/-- `convert_fndds.main`: a missing `surveyDownload.json` makes `open` raise
`FileNotFoundError`, terminating the interpreter with a nonzero status before
the output location is touched (the old artifact is removed only after the
input has been loaded); an SQLite error aborts mid-write. -/
def fnddsMain (input : Option (List FFood)) (old : Option FState) :
    RunOutcome FState :=
  match input with
  | none => ⟨1, some "FileNotFoundError: surveyDownload.json", old⟩
  | some foods =>
    match fnddsRun foods with
    | Except.error e => ⟨1, some e, none⟩
    | Except.ok st => ⟨0, none, some st⟩

/-! ## Analysis definitions (predicates used by the theorem statements) -/

/-- A `food_nutrient.csv` row that writes the canonical field `col` of key
`fdc` in the branded join: key match plus a nutrient id that parses and maps
to `col` (any amount counts since the branded script defaults to `0.0`). -/
def suppliesField (r : BNutRow) (fdc col : String) : Bool :=
  decide (r.fdc_id = fdc) &&
    (match r.nutrient_idI with
     | some nid => decide (nutrientLookup nid = some col)
     | none => false)

/-- A SR Legacy `food_nutrient.csv` row that writes the canonical field
`field` of key `fdc`: key match, canonical nutrient id, and a non-empty
amount that parses. -/
def uSupplies (r : UNutRow) (fdc : Int) (field : String) : Bool :=
  decide (r.fdc_id = fdc) && decide (nutrientFieldU r.nutrient_id = some field) &&
    !r.amount.isEmpty && r.amountF.isSome

/-- The row that one `branded_info` entry sends to the `INSERT OR IGNORE`
statement, `none` when the entity is excluded (no description / no
nutrients). -/
def acceptedRow (descs : List (String × String))
    (nutrients : List (String × List (String × Rat)))
    (kv : String × BrandedInfo) : Option BRow :=
  let description := (dictGet descs kv.1).getD ""
  if description.isEmpty then none
  else
    let nutr := (dictGet nutrients kv.1).getD []
    if nutr.isEmpty then none else some (mkBRow kv.2 description nutr)

/-! ## Dictionary lemmas -/

theorem keys_map_replace {κ α : Type} [DecidableEq κ] (m : List (κ × α)) (k : κ) (v : α) :
    (m.map fun p => if p.1 = k then (k, v) else p).map Prod.fst = m.map Prod.fst := by
  induction m with
  | nil => rfl
  | cons p t ih =>
    by_cases hp : p.1 = k
    · simp [hp, ih]
    · simp [hp, ih]

theorem dictGet_insert_self {κ α : Type} [DecidableEq κ] (m : List (κ × α)) (k : κ) (v : α) :
    dictGet (dictInsert m k v) k = some v := by
  unfold dictInsert
  cases hm : m.any (fun p => decide (p.1 = k)) with
  | true =>
    rw [if_pos rfl]
    induction m with
    | nil => simp at hm
    | cons p t ih =>
      by_cases hp : p.1 = k
      · simp [dictGet, List.find?, hp]
      · simp only [List.any_cons, hp, decide_False, Bool.false_or] at hm
        simp only [List.map_cons, if_neg hp]
        simp only [dictGet, List.find?, hp, decide_False] at ih ⊢
        exact ih hm
  | false =>
    rw [if_neg (by simp)]
    have hnone : m.find? (fun p => decide (p.1 = k)) = none := by
      rw [List.find?_eq_none]
      intro x hx
      have := List.any_eq_false.mp hm x hx
      simpa using this
    simp [dictGet, List.find?_append, hnone, List.find?]

theorem dictGet_insert_ne {κ α : Type} [DecidableEq κ] (m : List (κ × α)) (k k2 : κ)
    (v : α) (h : k2 ≠ k) : dictGet (dictInsert m k v) k2 = dictGet m k2 := by
  unfold dictInsert
  cases hm : m.any (fun p => decide (p.1 = k)) with
  | true =>
    rw [if_pos rfl]
    clear hm
    induction m with
    | nil => rfl
    | cons p t ih =>
      by_cases hp : p.1 = k
      · have hk2 : decide (((k, v) : κ × α).1 = k2) = false :=
          decide_eq_false (fun he => h he.symm)
        have hp2 : decide (p.1 = k2) = false :=
          decide_eq_false (by rw [hp]; exact fun he => h he.symm)
        simp only [List.map_cons, if_pos hp, dictGet, List.find?_cons, hk2, hp2]
        exact ih
      · simp only [List.map_cons, if_neg hp, dictGet, List.find?_cons]
        cases hq : decide (p.1 = k2) with
        | true => simp [hq]
        | false => simp only [hq]; exact ih
  | false =>
    rw [if_neg (by simp)]
    have hk2 : decide (((k, v) : κ × α).1 = k2) = false :=
      decide_eq_false (fun he => h he.symm)
    simp [dictGet, List.find?_append, List.find?_cons, hk2]

theorem dictKeys_insert_of_mem {κ α : Type} [DecidableEq κ] {m : List (κ × α)} {k : κ}
    (v : α) (h : m.any (fun p => decide (p.1 = k)) = true) :
    dictKeys (dictInsert m k v) = dictKeys m := by
  unfold dictInsert dictKeys
  rw [if_pos h]
  exact keys_map_replace m k v

theorem dictKeys_insert_of_not_mem {κ α : Type} [DecidableEq κ] {m : List (κ × α)} {k : κ}
    (v : α) (h : m.any (fun p => decide (p.1 = k)) = false) :
    dictKeys (dictInsert m k v) = dictKeys m ++ [k] := by
  unfold dictInsert dictKeys
  rw [if_neg (by simp [h])]
  simp

theorem not_mem_keys_of_any_false {κ α : Type} [DecidableEq κ] {m : List (κ × α)} {k : κ}
    (h : m.any (fun p => decide (p.1 = k)) = false) : k ∉ dictKeys m := by
  intro hk
  rcases List.mem_map.mp hk with ⟨p, hp, he⟩
  have := List.any_eq_false.mp h p hp
  simp [he] at this

theorem dictKeys_insert_nodup {κ α : Type} [DecidableEq κ] {m : List (κ × α)} {k : κ}
    (v : α) (h : (dictKeys m).Nodup) : (dictKeys (dictInsert m k v)).Nodup := by
  cases hm : m.any (fun p => decide (p.1 = k)) with
  | true => rw [dictKeys_insert_of_mem v hm]; exact h
  | false =>
    rw [dictKeys_insert_of_not_mem v hm]
    have hk := not_mem_keys_of_any_false hm
    simp [List.nodup_append, h, hk]

example : nutrientLookup 1008 = some "calories" := by decide
example :
    buildNutrients ["1"] [⟨"1", "1008", some 1008, "5", some 5⟩]
      = [("1", [("calories", 5)])] := by decide
example : pyFloatRepr 2 = "2.0" := by decide
example : pyFloatRepr (mkRat 5 2) = "2.5" := by decide
example : pyFloatRepr (mkRat (-3) 2) = "-1.5" := by decide
example : round4 (mkRat 1 20000) = 0 := by decide
example : round1 (10 : Rat) = 10 := by decide
example : round4 (mkRat 123456789 100000000) = mkRat 12346 10000 := by decide

theorem dictGet2_insert_self {κ : Type} [DecidableEq κ]
    (m : List (κ × List (String × Rat))) (k : κ) (col : String) (v : Rat) :
    dictGet2 (dictInsert m k (dictInsert ((dictGet m k).getD []) col v)) k col
      = some v := by
  unfold dictGet2
  rw [dictGet_insert_self]
  simp [dictGet_insert_self]

theorem dictGet2_insert_same_key_other_col {κ : Type} [DecidableEq κ]
    (m : List (κ × List (String × Rat))) (k : κ) (col col2 : String) (v : Rat)
    (h : col2 ≠ col) :
    dictGet2 (dictInsert m k (dictInsert ((dictGet m k).getD []) col v)) k col2
      = dictGet2 m k col2 := by
  unfold dictGet2
  rw [dictGet_insert_self]
  simp [dictGet_insert_ne _ _ _ _ h]

theorem dictGet2_insert_other_key {κ : Type} [DecidableEq κ]
    (m : List (κ × List (String × Rat))) (k k2 : κ) (col : String)
    (l : List (String × Rat)) (h : k2 ≠ k) :
    dictGet2 (dictInsert m k l) k2 col = dictGet2 m k2 col := by
  unfold dictGet2
  rw [dictGet_insert_ne _ _ _ _ h]

/-! ## Branded join lemmas -/

theorem stepNutrients_not_member (targets : List String)
    (m : List (String × List (String × Rat))) (row : BNutRow)
    (h : targets.contains row.fdc_id = false) :
    stepNutrients targets m row = m := by
  unfold stepNutrients
  rw [if_neg (by rw [h]; exact Bool.false_ne_true)]

theorem foldl_stepNutrients_filter (targets : List String) :
    ∀ (rows : List BNutRow) (m : List (String × List (String × Rat))),
      (rows.filter (fun r => targets.contains r.fdc_id)).foldl (stepNutrients targets) m
        = rows.foldl (stepNutrients targets) m
  | [], _ => rfl
  | r :: rest, m => by
    cases hc : targets.contains r.fdc_id with
    | true =>
      simp only [List.filter_cons, hc, if_pos rfl, List.foldl_cons]
      exact foldl_stepNutrients_filter targets rest (stepNutrients targets m r)
    | false =>
      simp only [List.filter_cons, hc, Bool.false_eq_true, if_false, List.foldl_cons]
      rw [stepNutrients_not_member targets m r hc]
      exact foldl_stepNutrients_filter targets rest m

theorem stepNutrients_preserves (targets : List String)
    (m : List (String × List (String × Rat))) (row : BNutRow) (fdc col : String)
    (h : suppliesField row fdc col = false) :
    dictGet2 (stepNutrients targets m row) fdc col = dictGet2 m fdc col := by
  unfold stepNutrients
  cases hc : targets.contains row.fdc_id with
  | false => simp
  | true =>
    simp only [if_pos rfl, if_true, eq_self_iff_true]
    cases hn : row.nutrient_idI with
    | none => rfl
    | some nid =>
      dsimp only
      cases hl : nutrientLookup nid with
      | none => rfl
      | some col2 =>
        dsimp only
        by_cases hfd : row.fdc_id = fdc
        · have hcol : col ≠ col2 := by
            intro he
            rw [suppliesField, hn] at h
            simp [hfd, hl, he] at h
          rw [hfd]
          exact dictGet2_insert_same_key_other_col _ _ _ _ _ hcol
        · exact dictGet2_insert_other_key _ _ _ _ _ (fun he => hfd he.symm)

theorem foldl_stepNutrients_preserves (targets : List String) (fdc col : String) :
    ∀ (rows : List BNutRow) (m : List (String × List (String × Rat))),
      (∀ r ∈ rows, suppliesField r fdc col = false) →
      dictGet2 (rows.foldl (stepNutrients targets) m) fdc col = dictGet2 m fdc col
  | [], _, _ => rfl
  | r :: rest, m, h => by
    simp only [List.foldl_cons]
    rw [foldl_stepNutrients_preserves targets fdc col rest _
      (fun x hx => h x (List.mem_cons_of_mem r hx))]
    exact stepNutrients_preserves targets m r fdc col (h r (List.mem_cons_self r rest))

theorem buildNutrients_last_value (targets : List String)
    (rows1 rows2 : List BNutRow) (row : BNutRow) (fdc col : String)
    (hs : suppliesField row fdc col = true)
    (ht : targets.contains fdc = true)
    (h2 : ∀ r ∈ rows2, suppliesField r fdc col = false) :
    dictGet2 (buildNutrients targets (rows1 ++ row :: rows2)) fdc col
      = some (brandedAmount row) := by
  unfold buildNutrients
  rw [List.foldl_append]
  simp only [List.foldl_cons]
  rw [foldl_stepNutrients_preserves targets fdc col rows2 _ h2]
  unfold suppliesField at hs
  cases hn : row.nutrient_idI with
  | none => rw [hn] at hs; simp at hs
  | some nid =>
    rw [hn] at hs
    simp only [Bool.and_eq_true, decide_eq_true_eq] at hs
    obtain ⟨hfd, hcol⟩ := hs
    unfold stepNutrients
    rw [hfd, if_pos ht, hn]
    dsimp only
    rw [hcol]
    dsimp only
    exact dictGet2_insert_self _ _ _ _

/-! ## Reference join lemmas -/

theorem uNutStep_not_member (food_ids : List Int)
    (m : List (Int × List (String × Rat))) (row : UNutRow)
    (h : food_ids.contains row.fdc_id = false) :
    uNutStep food_ids m row = m := by
  unfold uNutStep
  rw [if_neg (by rw [h]; exact Bool.false_ne_true)]

theorem uNutStep_skip_unparsed (food_ids : List Int)
    (m : List (Int × List (String × Rat))) (row : UNutRow)
    (h : row.amountF = none) :
    uNutStep food_ids m row = m := by
  unfold uNutStep
  cases hc : food_ids.contains row.fdc_id with
  | false => simp
  | true =>
    simp only [if_pos rfl, if_true, eq_self_iff_true]
    cases hl : nutrientFieldU row.nutrient_id with
    | none => rfl
    | some field =>
      dsimp only
      cases he : row.amount.isEmpty with
      | true => simp
      | false =>
        simp only [Bool.false_eq_true, if_false]
        rw [h]

theorem foldl_uNutStep_filter (food_ids : List Int) :
    ∀ (rows : List UNutRow) (m : List (Int × List (String × Rat))),
      (rows.filter (fun r => food_ids.contains r.fdc_id)).foldl (uNutStep food_ids) m
        = rows.foldl (uNutStep food_ids) m
  | [], _ => rfl
  | r :: rest, m => by
    cases hc : food_ids.contains r.fdc_id with
    | true =>
      simp only [List.filter_cons, hc, if_pos rfl, List.foldl_cons]
      exact foldl_uNutStep_filter food_ids rest (uNutStep food_ids m r)
    | false =>
      simp only [List.filter_cons, hc, Bool.false_eq_true, if_false, List.foldl_cons]
      rw [uNutStep_not_member food_ids m r hc]
      exact foldl_uNutStep_filter food_ids rest m

theorem uNutStep_preserves (food_ids : List Int)
    (m : List (Int × List (String × Rat))) (row : UNutRow) (fdc : Int) (field : String)
    (h : uSupplies row fdc field = false) :
    dictGet2 (uNutStep food_ids m row) fdc field = dictGet2 m fdc field := by
  unfold uNutStep
  cases hc : food_ids.contains row.fdc_id with
  | false => simp
  | true =>
    simp only [if_pos rfl, if_true, eq_self_iff_true]
    cases hl : nutrientFieldU row.nutrient_id with
    | none => rfl
    | some f2 =>
      dsimp only
      cases he : row.amount.isEmpty with
      | true => simp
      | false =>
        simp only [Bool.false_eq_true, if_false]
        cases ha : row.amountF with
        | none => rfl
        | some x =>
          dsimp only
          by_cases hfd : row.fdc_id = fdc
          · have hf2 : field ≠ f2 := by
              intro hef
              rw [uSupplies, hl, he, ha] at h
              simp [hfd, hef] at h
            rw [hfd]
            exact dictGet2_insert_same_key_other_col _ _ _ _ _ hf2
          · exact dictGet2_insert_other_key _ _ _ _ _ (fun hx => hfd hx.symm)

theorem foldl_uNutStep_preserves (food_ids : List Int) (fdc : Int) (field : String) :
    ∀ (rows : List UNutRow) (m : List (Int × List (String × Rat))),
      (∀ r ∈ rows, uSupplies r fdc field = false) →
      dictGet2 (rows.foldl (uNutStep food_ids) m) fdc field = dictGet2 m fdc field
  | [], _, _ => rfl
  | r :: rest, m, h => by
    simp only [List.foldl_cons]
    rw [foldl_uNutStep_preserves food_ids fdc field rest _
      (fun x hx => h x (List.mem_cons_of_mem r hx))]
    exact uNutStep_preserves food_ids m r fdc field (h r (List.mem_cons_self r rest))

theorem uLoadNutrients_last_value (food_ids : List Int)
    (rows1 rows2 : List UNutRow) (row : UNutRow) (fdc : Int) (field : String) (x : Rat)
    (hs : uSupplies row fdc field = true)
    (hx : row.amountF = some x)
    (ht : food_ids.contains fdc = true)
    (h2 : ∀ r ∈ rows2, uSupplies r fdc field = false) :
    dictGet2 (uLoadNutrients food_ids (rows1 ++ row :: rows2)) fdc field
      = some (round4 x) := by
  unfold uLoadNutrients
  rw [List.foldl_append]
  simp only [List.foldl_cons]
  rw [foldl_uNutStep_preserves food_ids fdc field rows2 _ h2]
  rw [uSupplies, hx] at hs
  simp only [Bool.and_eq_true, decide_eq_true_eq, Bool.not_eq_true',
    Option.isSome_some] at hs
  obtain ⟨⟨⟨hfd, hfl⟩, he⟩, -⟩ := hs
  unfold uNutStep
  rw [hfd, if_pos ht, hfl]
  dsimp only
  rw [he]
  simp only [Bool.false_eq_true, if_false]
  rw [hx]
  dsimp only
  exact dictGet2_insert_self _ _ _ _

/-! ## Store-builder lemmas (branded write loop) -/

theorem insertOrIgnore_nodup (t : List BRow) (r : BRow)
    (h : (t.map BRow.barcode).Nodup) :
    ((insertOrIgnore t r).map BRow.barcode).Nodup := by
  unfold insertOrIgnore
  cases hb : t.any (fun x => decide (x.barcode = r.barcode)) with
  | true => rw [if_pos rfl]; exact h
  | false =>
    rw [if_neg (by simp)]
    have hk : r.barcode ∉ t.map BRow.barcode := by
      intro hm
      rcases List.mem_map.mp hm with ⟨y, hy, he⟩
      have := List.any_eq_false.mp hb y hy
      simp [he] at this
    simp [List.nodup_append, h, hk]

theorem foldl_insertOrIgnore_nodup :
    ∀ (rows : List BRow) (t : List BRow), (t.map BRow.barcode).Nodup →
      (((rows.foldl insertOrIgnore t).map BRow.barcode)).Nodup
  | [], _, h => h
  | r :: rest, t, h => by
    simp only [List.foldl_cons]
    exact foldl_insertOrIgnore_nodup rest _ (insertOrIgnore_nodup t r h)

theorem foldl_insertOrIgnore_first_wins :
    ∀ (rows : List BRow) (t : List BRow) (r : BRow),
      r ∈ rows.foldl insertOrIgnore t →
      r ∈ t ∨ ((t.any (fun y => decide (y.barcode = r.barcode))) = false ∧
        rows.find? (fun x => decide (x.barcode = r.barcode)) = some r)
  | [], _, _, h => Or.inl h
  | row :: rest, t, r, h => by
    simp only [List.foldl_cons] at h
    rcases foldl_insertOrIgnore_first_wins rest (insertOrIgnore t row) r h with
      h1 | ⟨hno, hfind⟩
    · unfold insertOrIgnore at h1
      cases hb : t.any (fun y => decide (y.barcode = row.barcode)) with
      | true =>
        rw [hb, if_pos rfl] at h1
        exact Or.inl h1
      | false =>
        rw [hb, if_neg (by simp)] at h1
        rcases List.mem_append.mp h1 with h2 | h2
        · exact Or.inl h2
        · have he : r = row := by simpa using h2
          refine Or.inr ⟨by rw [he]; exact hb, ?_⟩
          rw [List.find?_cons_of_pos _ (by rw [he]; simp)]
          rw [he]
    · unfold insertOrIgnore at hno
      cases hb : t.any (fun y => decide (y.barcode = row.barcode)) with
      | true =>
        rw [hb, if_pos rfl] at hno
        have hne : decide (row.barcode = r.barcode) = false := by
          cases hq : decide (row.barcode = r.barcode) with
          | false => rfl
          | true =>
            have heq : row.barcode = r.barcode := of_decide_eq_true hq
            have : t.any (fun y => decide (y.barcode = r.barcode)) = true := by
              rw [← heq]; exact hb
            rw [this] at hno
            exact absurd hno (by simp)
        exact Or.inr ⟨hno, by rw [List.find?_cons_of_neg _ (by simp [hne]), hfind]⟩
      | false =>
        rw [hb, if_neg (by simp)] at hno
        rw [List.any_append] at hno
        have hsplit := Bool.or_eq_false_iff.mp hno
        have hrow : decide (row.barcode = r.barcode) = false := by
          have := hsplit.2
          simpa using this
        exact Or.inr ⟨hsplit.1,
          by rw [List.find?_cons_of_neg _ (by simp [hrow]), hfind]⟩

theorem bStep_eq (descs : List (String × String))
    (nutrients : List (String × List (String × Rat))) (st : BState)
    (kv : String × BrandedInfo) :
    bStep descs nutrients st kv =
      if ((dictGet descs kv.1).getD "").isEmpty then
        ⟨st.table, st.noDesc + 1, st.noNutr, st.inserted⟩
      else if ((dictGet nutrients kv.1).getD []).isEmpty then
        ⟨st.table, st.noDesc, st.noNutr + 1, st.inserted⟩
      else
        ⟨insertOrIgnore st.table
          (mkBRow kv.2 ((dictGet descs kv.1).getD "") ((dictGet nutrients kv.1).getD [])),
         st.noDesc, st.noNutr, st.inserted + 1⟩ := rfl

theorem acceptedRow_eq (descs : List (String × String))
    (nutrients : List (String × List (String × Rat))) (kv : String × BrandedInfo) :
    acceptedRow descs nutrients kv =
      if ((dictGet descs kv.1).getD "").isEmpty then none
      else if ((dictGet nutrients kv.1).getD []).isEmpty then none
      else some (mkBRow kv.2 ((dictGet descs kv.1).getD "")
        ((dictGet nutrients kv.1).getD [])) := rfl

theorem foldl_bStep_table (descs : List (String × String))
    (nutrients : List (String × List (String × Rat))) :
    ∀ (infos : List (String × BrandedInfo)) (st : BState),
      (infos.foldl (bStep descs nutrients) st).table
        = (infos.filterMap (acceptedRow descs nutrients)).foldl insertOrIgnore st.table
  | [], _ => rfl
  | kv :: rest, st => by
    simp only [List.foldl_cons, List.filterMap_cons]
    rw [foldl_bStep_table descs nutrients rest (bStep descs nutrients st kv)]
    rw [bStep_eq, acceptedRow_eq]
    cases h1 : ((dictGet descs kv.1).getD "").isEmpty with
    | true => simp
    | false =>
      cases h2 : ((dictGet nutrients kv.1).getD []).isEmpty with
      | true => simp
      | false => simp

/-! ## Survey-pipeline lemmas -/

theorem foodsInsert_ok {t : List FoodsRow} {r : FoodsRow} {t2 : List FoodsRow}
    (h : foodsInsert t r = Except.ok t2) :
    t2 = t ++ [r] ∧ t.any (fun x => decide (x.food_code = r.food_code)) = false := by
  unfold foodsInsert at h
  cases hb : t.any (fun x => decide (x.food_code = r.food_code)) with
  | true => rw [hb, if_pos rfl] at h; cases h
  | false =>
    rw [hb, if_neg (by simp)] at h
    refine ⟨?_, rfl⟩
    cases h
    rfl

theorem fnddsStep_skip (st : FState) (food : FFood)
    (h : fnddsKeeps food = false) : fnddsStep st food = Except.ok st := by
  unfold fnddsStep
  rw [if_pos]
  unfold fnddsKeeps at h
  have h2 : (decide (food.foodCode.getD 0 = 0) || food.foodNutrients.isEmpty) = true := by
    cases hb : (decide (food.foodCode.getD 0 = 0) || food.foodNutrients.isEmpty) with
    | true => rfl
    | false => rw [hb] at h; simp at h
  rcases Bool.or_eq_true_iff.mp h2 with h1 | h1
  · exact Or.inl (of_decide_eq_true h1)
  · exact Or.inr h1

theorem fnddsStep_keep (st : FState) (food : FFood)
    (h : fnddsKeeps food = true) :
    fnddsStep st food =
      match foodsInsert st.foods (fnddsFoodRow food) with
      | Except.error e => Except.error e
      | Except.ok foods2 =>
        Except.ok ⟨foods2,
          (fnddsPortions (food.foodCode.getD 0) food.foodPortions
            (st.portions, st.portion_count)).1,
          st.fts ++ [(food.description, food.foodCode.getD 0)],
          st.food_count + 1,
          (fnddsPortions (food.foodCode.getD 0) food.foodPortions
            (st.portions, st.portion_count)).2⟩ := by
  unfold fnddsStep
  rw [if_neg]
  intro hg
  unfold fnddsKeeps at h
  rcases hg with h1 | h1
  · rw [h1] at h
    simp at h
  · rw [h1] at h
    simp at h

theorem fnddsRunAux_inv (P : FState → Prop)
    (hstep : ∀ st food st2, P st → fnddsStep st food = Except.ok st2 → P st2) :
    ∀ (foods : List FFood) (st res : FState),
      P st → fnddsRunAux st foods = Except.ok res → P res
  | [], st, res, hP, h => by
    unfold fnddsRunAux at h
    cases h
    exact hP
  | food :: rest, st, res, hP, h => by
    unfold fnddsRunAux at h
    cases hs : fnddsStep st food with
    | error e => rw [hs] at h; cases h
    | ok st2 =>
      rw [hs] at h
      exact fnddsRunAux_inv P hstep rest st2 res (hstep st food st2 hP hs) h

theorem fnddsStep_foods_nodup (st : FState) (food : FFood) (st2 : FState)
    (hP : (st.foods.map FoodsRow.food_code).Nodup)
    (h : fnddsStep st food = Except.ok st2) :
    (st2.foods.map FoodsRow.food_code).Nodup := by
  cases hk : fnddsKeeps food with
  | false =>
    rw [fnddsStep_skip st food hk] at h
    cases h
    exact hP
  | true =>
    rw [fnddsStep_keep st food hk] at h
    cases hins : foodsInsert st.foods (fnddsFoodRow food) with
    | error e => rw [hins] at h; cases h
    | ok foods2 =>
      rw [hins] at h
      obtain ⟨hap, hfresh⟩ := foodsInsert_ok hins
      have hfoods : st2.foods = foods2 := by cases h; rfl
      rw [hfoods, hap]
      have hk2 : (fnddsFoodRow food).food_code ∉ st.foods.map FoodsRow.food_code := by
        intro hm
        rcases List.mem_map.mp hm with ⟨y, hy, he⟩
        have := List.any_eq_false.mp hfresh y hy
        simp [he] at this
      simp [List.nodup_append, hP, hk2]

theorem fnddsPortions_cons (fc : Int) (q : FPortion) (rest : List FPortion)
    (acc : List PortionsRow × Nat) :
    fnddsPortions fc (q :: rest) acc
      = fnddsPortions fc rest
          (if 0 < q.gramWeight.getD 0 ∧ ¬q.portionDescription.isEmpty then
            (acc.1 ++ [(⟨fc, q.portionDescription, q.gramWeight.getD 0⟩ : PortionsRow)],
             acc.2 + 1)
          else acc) := rfl

theorem fnddsPortions_mem (fc : Int) :
    ∀ (ps : List FPortion) (acc : List PortionsRow × Nat) (p : PortionsRow),
      p ∈ (fnddsPortions fc ps acc).1 →
      p ∈ acc.1 ∨ (0 < p.gram_weight ∧ p.description.isEmpty = false)
  | [], _, _, h => Or.inl h
  | q :: rest, acc, p, h => by
    rw [fnddsPortions_cons] at h
    by_cases hg : 0 < q.gramWeight.getD 0 ∧ ¬q.portionDescription.isEmpty
    · rw [if_pos hg] at h
      rcases fnddsPortions_mem fc rest _ p h with h1 | h1
      · rcases List.mem_append.mp h1 with h2 | h2
        · exact Or.inl h2
        · have he : p = (⟨fc, q.portionDescription, q.gramWeight.getD 0⟩ : PortionsRow) := by
            simpa using h2
          refine Or.inr ⟨?_, ?_⟩
          · rw [he]; exact hg.1
          · rw [he]; simpa using hg.2
      · exact Or.inr h1
    · rw [if_neg hg] at h
      exact fnddsPortions_mem fc rest acc p h

theorem fnddsStep_portions_inv (st : FState) (food : FFood) (st2 : FState)
    (hP : ∀ p ∈ st.portions, 0 < p.gram_weight ∧ p.description.isEmpty = false)
    (h : fnddsStep st food = Except.ok st2) :
    ∀ p ∈ st2.portions, 0 < p.gram_weight ∧ p.description.isEmpty = false := by
  cases hk : fnddsKeeps food with
  | false =>
    rw [fnddsStep_skip st food hk] at h
    cases h
    exact hP
  | true =>
    rw [fnddsStep_keep st food hk] at h
    cases hins : foodsInsert st.foods (fnddsFoodRow food) with
    | error e => rw [hins] at h; cases h
    | ok foods2 =>
      rw [hins] at h
      have hports : st2.portions =
          (fnddsPortions (food.foodCode.getD 0) food.foodPortions
            (st.portions, st.portion_count)).1 := by
        cases h; rfl
      intro p hp
      rw [hports] at hp
      rcases fnddsPortions_mem _ _ _ p hp with h1 | h1
      · exact hP p h1
      · exact h1

theorem fnddsRunAux_foods_length :
    ∀ (foods : List FFood) (st res : FState),
      fnddsRunAux st foods = Except.ok res →
      res.foods.length = st.foods.length + (foods.filter fnddsKeeps).length
  | [], st, res, h => by
    unfold fnddsRunAux at h
    cases h
    simp
  | food :: rest, st, res, h => by
    unfold fnddsRunAux at h
    cases hk : fnddsKeeps food with
    | false =>
      rw [fnddsStep_skip st food hk] at h
      rw [List.filter_cons, hk]
      simp only [Bool.false_eq_true, if_false]
      exact fnddsRunAux_foods_length rest st res h
    | true =>
      rw [fnddsStep_keep st food hk] at h
      cases hins : foodsInsert st.foods (fnddsFoodRow food) with
      | error e => rw [hins] at h; cases h
      | ok foods2 =>
        rw [hins] at h
        obtain ⟨hap, -⟩ := foodsInsert_ok hins
        rw [List.filter_cons, hk]
        simp only [if_pos rfl]
        have := fnddsRunAux_foods_length rest _ res h
        rw [this]
        simp [hap]
        omega

theorem mem_foldl_insertOrIgnore_nil (rows : List BRow) (r : BRow)
    (h : r ∈ rows.foldl insertOrIgnore []) :
    rows.find? (fun x => decide (x.barcode = r.barcode)) = some r := by
  rcases foldl_insertOrIgnore_first_wins rows [] r h with h1 | ⟨-, h2⟩
  · cases h1
  · exact h2

theorem acceptedRow_some {descs : List (String × String)}
    {nutrients : List (String × List (String × Rat))}
    {kv : String × BrandedInfo} {r : BRow}
    (h : acceptedRow descs nutrients kv = some r) :
    ((dictGet descs kv.1).getD "").isEmpty = false ∧
      ((dictGet nutrients kv.1).getD []).isEmpty = false ∧
      r = mkBRow kv.2 ((dictGet descs kv.1).getD "")
        ((dictGet nutrients kv.1).getD []) := by
  rw [acceptedRow_eq] at h
  cases h1 : ((dictGet descs kv.1).getD "").isEmpty with
  | true => rw [h1] at h; simp at h
  | false =>
    rw [h1] at h
    cases h2 : ((dictGet nutrients kv.1).getD []).isEmpty with
    | true => rw [h2] at h; simp at h
    | false =>
      rw [h2] at h
      simp only [Bool.false_eq_true, if_false, Option.some.injEq] at h
      exact ⟨rfl, rfl, h.symm⟩

theorem mkBRow_description (info : BrandedInfo) (d : String)
    (nutr : List (String × Rat)) : (mkBRow info d nutr).description = d := rfl

theorem foldl_bStep_noDesc (descs : List (String × String))
    (nutrients : List (String × List (String × Rat))) :
    ∀ (infos : List (String × BrandedInfo)) (st : BState),
      (infos.foldl (bStep descs nutrients) st).noDesc
        = st.noDesc
          + (infos.filter (fun kv => ((dictGet descs kv.1).getD "").isEmpty)).length
  | [], st => by simp
  | kv :: rest, st => by
    simp only [List.foldl_cons, List.filter_cons]
    rw [foldl_bStep_noDesc descs nutrients rest (bStep descs nutrients st kv), bStep_eq]
    cases h1 : ((dictGet descs kv.1).getD "").isEmpty with
    | true =>
      simp
      omega
    | false =>
      simp only [Bool.false_eq_true, if_false]
      cases h2 : ((dictGet nutrients kv.1).getD []).isEmpty with
      | true => simp
      | false => simp

theorem foldl_bStep_noNutr (descs : List (String × String))
    (nutrients : List (String × List (String × Rat))) :
    ∀ (infos : List (String × BrandedInfo)) (st : BState),
      (infos.foldl (bStep descs nutrients) st).noNutr
        = st.noNutr
          + (infos.filter (fun kv => !((dictGet descs kv.1).getD "").isEmpty
              && ((dictGet nutrients kv.1).getD []).isEmpty)).length
  | [], st => by simp
  | kv :: rest, st => by
    simp only [List.foldl_cons, List.filter_cons]
    rw [foldl_bStep_noNutr descs nutrients rest (bStep descs nutrients st kv), bStep_eq]
    cases h1 : ((dictGet descs kv.1).getD "").isEmpty with
    | true => simp
    | false =>
      simp only [Bool.false_eq_true, if_false, Bool.not_false, Bool.true_and]
      cases h2 : ((dictGet nutrients kv.1).getD []).isEmpty with
      | true =>
        simp
        omega
      | false => simp

theorem foldl_bStep_inserted (descs : List (String × String))
    (nutrients : List (String × List (String × Rat))) :
    ∀ (infos : List (String × BrandedInfo)) (st : BState),
      (infos.foldl (bStep descs nutrients) st).inserted
        = st.inserted + (infos.filterMap (acceptedRow descs nutrients)).length
  | [], st => by simp
  | kv :: rest, st => by
    simp only [List.foldl_cons, List.filterMap_cons]
    rw [foldl_bStep_inserted descs nutrients rest (bStep descs nutrients st kv),
      bStep_eq, acceptedRow_eq]
    cases h1 : ((dictGet descs kv.1).getD "").isEmpty with
    | true => simp
    | false =>
      simp only [Bool.false_eq_true, if_false]
      cases h2 : ((dictGet nutrients kv.1).getD []).isEmpty with
      | true => simp
      | false =>
        simp
        omega

/-! ## Reference-pipeline lemmas -/

theorem foldl_dictInsert_foods_nodup :
    ∀ (rows : List UFoodRow) (m : List (Int × String)),
      (dictKeys m).Nodup →
      (dictKeys (rows.foldl (fun m row => dictInsert m row.fdc_id row.description) m)).Nodup
  | [], _, h => h
  | row :: rest, m, h => by
    simp only [List.foldl_cons]
    exact foldl_dictInsert_foods_nodup rest _ (dictKeys_insert_nodup _ h)

theorem uLoadFoods_keys_nodup (rows : List UFoodRow) :
    (dictKeys (uLoadFoods rows)).Nodup :=
  foldl_dictInsert_foods_nodup rows [] List.nodup_nil

theorem buildDbAux_ids (categories : List (Int × String)) (food_cats : List (Int × Int))
    (nutrients : List (Int × List (String × Rat))) (portions : List (Int × List UPortion)) :
    ∀ (foods : List (Int × String)) (db : List DBEntry),
      (buildDbAux categories food_cats nutrients portions db foods).map DBEntry.id
        = db.map DBEntry.id
          ++ (foods.filter (fun kv => (dictGet nutrients kv.1).isSome)).map Prod.fst
  | [], db => by simp [buildDbAux]
  | kv :: rest, db => by
    unfold buildDbAux
    cases hn : dictGet nutrients kv.1 with
    | none =>
      rw [buildDbAux_ids categories food_cats nutrients portions rest db]
      simp [List.filter_cons, hn]
    | some nuts =>
      rw [buildDbAux_ids categories food_cats nutrients portions rest _]
      simp [List.filter_cons, hn]

theorem insertSorted_perm {α : Type} (le : α → α → Bool) (x : α) :
    ∀ (l : List α), (insertSorted le x l).Perm (x :: l)
  | [] => List.Perm.refl _
  | y :: ys => by
    unfold insertSorted
    by_cases h : le y x = true
    · rw [if_pos h]
      exact ((insertSorted_perm le x ys).cons y).trans (List.Perm.swap x y ys)
    · rw [if_neg h]

theorem foldl_insertSorted_perm {α : Type} (le : α → α → Bool) :
    ∀ (l acc : List α),
      (l.foldl (fun acc x => insertSorted le x acc) acc).Perm (l ++ acc)
  | [], acc => by simp
  | x :: xs, acc => by
    simp only [List.foldl_cons]
    refine (foldl_insertSorted_perm le xs (insertSorted le x acc)).trans ?_
    refine (List.Perm.append_left xs (insertSorted_perm le x acc)).trans ?_
    exact List.perm_middle

theorem stableSort_perm {α : Type} (le : α → α → Bool) (l : List α) :
    (stableSort le l).Perm l := by
  unfold stableSort
  have := foldl_insertSorted_perm le l []
  simpa using this

theorem usdaPipeline_ids_nodup (foodRows : List UFoodRow) (catRows : List UCatRow)
    (nutRows : List UNutRow) (portRows : List UPortionRow) :
    ((usdaPipeline foodRows catRows nutRows portRows).map DBEntry.id).Nodup := by
  unfold usdaPipeline build_database
  have hperm := stableSort_perm
    (fun a b => pyStrLe (pyLower a.name) (pyLower b.name))
    (buildDbAux (uLoadCategories catRows) (uLoadFoodCats foodRows)
      (uLoadNutrients (dictKeys (uLoadFoods foodRows)) nutRows)
      (uLoadPortions (dictKeys (uLoadFoods foodRows)) portRows) [] (uLoadFoods foodRows))
  rw [(hperm.map DBEntry.id).nodup_iff]
  rw [buildDbAux_ids]
  simp only [List.map_nil, List.nil_append]
  have hsub : ((uLoadFoods foodRows).filter
      (fun kv => (dictGet (uLoadNutrients (dictKeys (uLoadFoods foodRows)) nutRows) kv.1).isSome)).map
        Prod.fst |>.Sublist ((uLoadFoods foodRows).map Prod.fst) :=
    (List.filter_sublist _).map Prod.fst
  exact (uLoadFoods_keys_nodup foodRows).sublist hsub

/-! ## Step-level write lemmas -/

theorem stepNutrients_writes (targets : List String)
    (m : List (String × List (String × Rat))) (row : BNutRow) (nid : Int) (col : String)
    (ht : targets.contains row.fdc_id = true)
    (hn : row.nutrient_idI = some nid)
    (hl : nutrientLookup nid = some col) :
    dictGet2 (stepNutrients targets m row) row.fdc_id col
      = some (brandedAmount row) := by
  unfold stepNutrients
  rw [if_pos ht, hn]
  dsimp only
  rw [hl]
  dsimp only
  exact dictGet2_insert_self _ _ _ _

theorem uNutStep_writes (food_ids : List Int)
    (m : List (Int × List (String × Rat))) (row : UNutRow) (field : String) (x : Rat)
    (ht : food_ids.contains row.fdc_id = true)
    (hl : nutrientFieldU row.nutrient_id = some field)
    (hne : row.amount.isEmpty = false)
    (hx : row.amountF = some x) :
    dictGet2 (uNutStep food_ids m row) row.fdc_id field = some (round4 x) := by
  unfold uNutStep
  rw [if_pos ht, hl]
  dsimp only
  rw [hne]
  simp only [Bool.false_eq_true, if_false]
  rw [hx]
  dsimp only
  exact dictGet2_insert_self _ _ _ _

theorem buildBrandedInfo_append (rows : List BBrandRow) (row : BBrandRow)
    (info : BrandedInfo) (h : projectBrandRow row = some info) :
    dictGet (buildBrandedInfo (rows ++ [row])) row.fdc_id = some info := by
  unfold buildBrandedInfo
  rw [List.foldl_append]
  simp only [List.foldl_cons, List.foldl_nil]
  rw [h]
  exact dictGet_insert_self _ _ _

theorem brandedPipeline_table_mem (f : List BFoodRow) (b : List BBrandRow)
    (n : List BNutRow) (r : BRow) (h : r ∈ (brandedPipeline f b n).table) :
    ∃ kv, kv ∈ buildBrandedInfo b ∧
      acceptedRow (buildFoodDescriptions f)
        (buildNutrients ((buildBrandedInfo b).map Prod.fst) n) kv = some r := by
  unfold brandedPipeline writeBranded at h
  rw [foldl_bStep_table] at h
  have hmem : r ∈ ((buildBrandedInfo b).filterMap
      (acceptedRow (buildFoodDescriptions f)
        (buildNutrients ((buildBrandedInfo b).map Prod.fst) n))) := by
    have := mem_foldl_insertOrIgnore_nil _ r h
    exact List.mem_of_find?_eq_some this
  rcases List.mem_filterMap.mp hmem with ⟨kv, hkv, hacc⟩
  exact ⟨kv, hkv, hacc⟩

theorem uPortionStep_accept (food_ids : List Int) (m : List (Int × List UPortion))
    (row : UPortionRow) (grams : Rat) (desc : String)
    (hd : desc = (if row.modifier.isEmpty then row.portion_description else row.modifier))
    (ht : food_ids.contains row.fdc_id = true)
    (hgs : row.gram_weight.isEmpty = false)
    (hds : desc.isEmpty = false)
    (hg : row.gram_weightF = some grams) :
    uPortionStep food_ids m row = dictInsert m row.fdc_id
      ((dictGet m row.fdc_id).getD [] ++
       [⟨pyStrip (if row.amountF.getD 1 = 1 then desc
          else pyFloatRepr (row.amountF.getD 1) ++ " " ++ desc),
         round1 grams⟩]) := by
  unfold uPortionStep
  rw [if_pos ht, ← hd]
  rw [if_neg (by rw [hgs, hds]; rintro (h1 | h1) <;> exact absurd h1 Bool.false_ne_true)]
  rw [hg]
  dsimp only
  by_cases ha : row.amountF.getD 1 = 1
  · rw [if_neg (by intro hne; exact hne ha), if_pos ha]
  · rw [if_pos ha, if_neg (by rw [hds]; exact Bool.false_ne_true), if_neg ha]

theorem buildNutrientMap_append (ns : List FNutrient) (n : FNutrient) (nid : Int)
    (hn : n.nid = some nid) (h0 : nid ≠ 0) (hc : fnddsHasCol nid = true) :
    dictGet (buildNutrientMap (ns ++ [n])) nid = some (n.amount.getD 0) := by
  unfold buildNutrientMap
  rw [List.foldl_append]
  simp only [List.foldl_cons, List.foldl_nil]
  rw [hn]
  dsimp only
  rw [if_pos (And.intro h0 hc)]
  exact dictGet_insert_self _ _ _

/-! ## Claim theorems -/

/-- Claim C1: in every output artifact produced by a completed run, no two
rows of the primary table share the same primary key — barcode for the
branded store, food code for the survey store, id for the reference JSON
array (a survey run that would duplicate a key does not complete: it errors). -/
theorem c1_primary_key_uniqueness :
    (∀ (f : List BFoodRow) (b : List BBrandRow) (n : List BNutRow),
      ((brandedPipeline f b n).table.map BRow.barcode).Nodup) ∧
    (∀ (foods : List FFood) (res : FState), fnddsRun foods = Except.ok res →
      (res.foods.map FoodsRow.food_code).Nodup) ∧
    (∀ (fr : List UFoodRow) (cr : List UCatRow) (nr : List UNutRow) (pr : List UPortionRow),
      ((usdaPipeline fr cr nr pr).map DBEntry.id).Nodup) := by
  refine ⟨?_, ?_, ?_⟩
  · intro f b n
    unfold brandedPipeline writeBranded
    rw [foldl_bStep_table]
    exact foldl_insertOrIgnore_nodup _ _ List.nodup_nil
  · intro foods res h
    exact fnddsRunAux_inv (fun st => (st.foods.map FoodsRow.food_code).Nodup)
      fnddsStep_foods_nodup foods ⟨[], [], [], 0, 0⟩ res List.nodup_nil h
  · intro fr cr nr pr
    exact usdaPipeline_ids_nodup fr cr nr pr

/-- Witness for C1 at concrete inputs for all three pipelines. -/
theorem c1_witness :
    (((brandedPipeline [⟨"1", "branded_food", "Food"⟩]
        [⟨"1", "X", "A", "", "", none, "", ""⟩]
        [⟨"1", "1008", some 1008, "5", some 5⟩]).table.map BRow.barcode).Nodup) ∧
    ((((⟨[⟨1, "A", 2 :: List.replicate 31 0⟩], [⟨1, "1 medium", 182⟩], [("A", 1)],
        1, 1⟩ : FState)).foods.map FoodsRow.food_code).Nodup) ∧
    (((usdaPipeline [⟨1, "Food", none⟩] [] [⟨1, 1008, "3", some 3⟩] []).map
        DBEntry.id).Nodup) :=
  ⟨c1_primary_key_uniqueness.1 _ _ _,
   c1_primary_key_uniqueness.2.1
     [⟨some 1, "A", [⟨some 1008, some 2⟩], [⟨some 182, "1 medium"⟩]⟩] _ rfl,
   c1_primary_key_uniqueness.2.2 _ _ _ _⟩

/-- Counterexample to C2 as stated: the survey pipeline keeps a food whose
description is empty and whose nutrient array matches zero canonical fields
(its only check is a truthy food code and a non-empty raw nutrient array),
so the entity appears in the output with an empty description and all-zero
columns instead of being excluded and counted. -/
theorem c2_counterexample :
    (fnddsRun [⟨some 1, "", [⟨some 9999, some 5⟩], []⟩]).toOption.map
        (fun st => st.foods.map (fun r => (r.description, r.nvals)))
      = some [("", List.replicate 32 0)] := by decide

/-- Claim C2 amended: the exclusion-by-reason policy holds for the branded
pipeline (every output row has a non-empty description and was built from a
non-empty joined nutrient map, and the two skip counters count exactly the
entities excluded for each reason); the survey pipeline instead excludes
exactly the foods with falsy food code or empty raw nutrient array. -/
theorem c2_amended_exclusions :
    (∀ (f : List BFoodRow) (b : List BBrandRow) (n : List BNutRow) (r : BRow),
      r ∈ (brandedPipeline f b n).table →
      r.description.isEmpty = false ∧
      ∃ kv nutr, kv ∈ buildBrandedInfo b ∧
        dictGet (buildNutrients ((buildBrandedInfo b).map Prod.fst) n) kv.1 = some nutr ∧
        nutr ≠ [] ∧
        r = mkBRow kv.2 ((dictGet (buildFoodDescriptions f) kv.1).getD "") nutr) ∧
    (∀ (f : List BFoodRow) (b : List BBrandRow) (n : List BNutRow),
      (brandedPipeline f b n).noDesc
        = ((buildBrandedInfo b).filter
            (fun kv => ((dictGet (buildFoodDescriptions f) kv.1).getD "").isEmpty)).length ∧
      (brandedPipeline f b n).noNutr
        = ((buildBrandedInfo b).filter
            (fun kv => !((dictGet (buildFoodDescriptions f) kv.1).getD "").isEmpty
              && ((dictGet (buildNutrients ((buildBrandedInfo b).map Prod.fst) n)
                    kv.1).getD []).isEmpty)).length) ∧
    (∀ (foods : List FFood) (res : FState), fnddsRun foods = Except.ok res →
      res.foods.length = (foods.filter fnddsKeeps).length) := by
  refine ⟨?_, ?_, ?_⟩
  · intro f b n r h
    rcases brandedPipeline_table_mem f b n r h with ⟨kv, hkv, hacc⟩
    rcases acceptedRow_some hacc with ⟨hdesc, hnutr, hr⟩
    constructor
    · rw [hr, mkBRow_description]
      exact hdesc
    · refine ⟨kv, (dictGet (buildNutrients ((buildBrandedInfo b).map Prod.fst) n)
        kv.1).getD [], hkv, ?_, ?_, hr⟩
      · cases hg : dictGet (buildNutrients ((buildBrandedInfo b).map Prod.fst) n) kv.1 with
        | none => rw [hg] at hnutr; simp at hnutr
        | some l => rfl
      · intro he
        rw [he] at hnutr
        simp at hnutr
  · intro f b n
    constructor
    · unfold brandedPipeline writeBranded
      rw [foldl_bStep_noDesc]
      simp
    · unfold brandedPipeline writeBranded
      rw [foldl_bStep_noNutr]
      simp
  · intro foods res h
    have := fnddsRunAux_foods_length foods ⟨[], [], [], 0, 0⟩ res h
    simpa using this

/-- Witness for C2 amended at concrete inputs. -/
theorem c2_amended_witness :
    ((mkBRow ⟨"X", "A", none, "", ""⟩ "Food" [("calories", 5)]).description.isEmpty
        = false ∧
      ∃ kv nutr, kv ∈ buildBrandedInfo [⟨"1", "X", "A", "", "", none, "", ""⟩] ∧
        dictGet (buildNutrients
          ((buildBrandedInfo [⟨"1", "X", "A", "", "", none, "", ""⟩]).map Prod.fst)
          [⟨"1", "1008", some 1008, "5", some 5⟩]) kv.1 = some nutr ∧
        nutr ≠ [] ∧
        (mkBRow ⟨"X", "A", none, "", ""⟩ "Food" [("calories", 5)])
          = mkBRow kv.2
              ((dictGet (buildFoodDescriptions [⟨"1", "branded_food", "Food"⟩])
                kv.1).getD "") nutr) ∧
    ((⟨[⟨1, "A", 2 :: List.replicate 31 0⟩], [⟨1, "1 medium", 182⟩], [("A", 1)],
        1, 1⟩ : FState)).foods.length
      = ([(⟨some 1, "A", [⟨some 1008, some 2⟩],
            [⟨some 182, "1 medium"⟩]⟩ : FFood)].filter fnddsKeeps).length :=
  ⟨c2_amended_exclusions.1 [⟨"1", "branded_food", "Food"⟩]
      [⟨"1", "X", "A", "", "", none, "", ""⟩]
      [⟨"1", "1008", some 1008, "5", some 5⟩] _ (by decide),
   c2_amended_exclusions.2.2
      [⟨some 1, "A", [⟨some 1008, some 2⟩], [⟨some 182, "1 medium"⟩]⟩] _ rfl⟩

/-- Counterexample to C3 as stated: in the branded pipeline a present but
unparseable amount ("abc") is recorded as `0` in the per-key profile at
parse time, not left absent. -/
theorem c3_counterexample :
    dictGet2 (buildNutrients ["1"] [⟨"1", "1008", some 1008, "abc", none⟩])
      "1" "calories" = some 0 := by decide

/-- Claim C3 amended: in the reference pipeline an unparseable amount leaves
the field absent (the row has no effect); in the branded pipeline a present
but unparseable amount is recorded as `0.0` in the profile already at parse
time (the write-time `get(col, 0)` default is separate). -/
theorem c3_amended_parse_policy :
    (∀ (food_ids : List Int) (m : List (Int × List (String × Rat))) (row : UNutRow),
      row.amountF = none → uNutStep food_ids m row = m) ∧
    (∀ (targets : List String) (m : List (String × List (String × Rat)))
       (row : BNutRow) (nid : Int) (col : String),
      targets.contains row.fdc_id = true → row.nutrient_idI = some nid →
      nutrientLookup nid = some col → row.amount.isEmpty = false →
      row.amountF = none →
      dictGet2 (stepNutrients targets m row) row.fdc_id col = some 0) := by
  refine ⟨?_, ?_⟩
  · intro food_ids m row h
    exact uNutStep_skip_unparsed food_ids m row h
  · intro targets m row nid col ht hn hl hne hf
    rw [stepNutrients_writes targets m row nid col ht hn hl]
    unfold brandedAmount
    rw [hne, hf]
    simp

/-- Witness for C3 amended at concrete rows. -/
theorem c3_amended_witness :
    uNutStep [1] [] ⟨1, 1008, "abc", none⟩ = [] ∧
    dictGet2 (stepNutrients ["1"] [] ⟨"1", "1008", some 1008, "abc", none⟩)
      "1" "calories" = some 0 :=
  ⟨c3_amended_parse_policy.1 [1] [] ⟨1, 1008, "abc", none⟩ rfl,
   c3_amended_parse_policy.2 ["1"] [] ⟨"1", "1008", some 1008, "abc", none⟩
     1008 "calories" (by decide) rfl (by decide) rfl rfl⟩

/-- Counterexample to C4 as stated: two `branded_food.csv` rows share the
barcode "X" and the fdc id "1"; the first encountered full record carries
brand "A", but the pipeline joins per fdc id with last-write-wins before
deduplicating by barcode, so the single output row carries brand "B" from
the later record, not the first encountered record. -/
theorem c4_counterexample :
    ((brandedPipeline [⟨"1", "branded_food", "Food"⟩]
        [⟨"1", "X", "A", "", "", none, "", ""⟩, ⟨"1", "X", "B", "", "", none, "", ""⟩]
        [⟨"1", "1008", some 1008, "5", some 5⟩]).table.map BRow.brand
      = [some "B"]) ∧
    (projectBrandRow ⟨"1", "X", "A", "", "", none, "", ""⟩).map BrandedInfo.brand
      = some "A" ∧ some "B" ≠ some "A" :=
  ⟨by decide, by decide, by decide⟩

/-- Claim C4 amended: first-encountered-wins holds at the level of the
joined records (one per fdc id, after last-write-wins on fdc id and the
exclusion filters): the branded table is exactly the insert-or-ignore fold
over those accepted rows in iteration order, a row present in the table is
the first accepted row carrying its barcode, later ones are dropped without
aborting, and the attempted-insert counter counts every accepted row. -/
theorem c4_amended_first_wins :
    (∀ (rows : List BRow) (r : BRow), r ∈ rows.foldl insertOrIgnore [] →
      rows.find? (fun x => decide (x.barcode = r.barcode)) = some r) ∧
    (∀ (f : List BFoodRow) (b : List BBrandRow) (n : List BNutRow),
      (brandedPipeline f b n).table
        = ((buildBrandedInfo b).filterMap
            (acceptedRow (buildFoodDescriptions f)
              (buildNutrients ((buildBrandedInfo b).map Prod.fst) n))).foldl
            insertOrIgnore []) ∧
    (∀ (f : List BFoodRow) (b : List BBrandRow) (n : List BNutRow),
      (brandedPipeline f b n).inserted
        = ((buildBrandedInfo b).filterMap
            (acceptedRow (buildFoodDescriptions f)
              (buildNutrients ((buildBrandedInfo b).map Prod.fst) n))).length) := by
  refine ⟨?_, ?_, ?_⟩
  · intro rows r h
    exact mem_foldl_insertOrIgnore_nil rows r h
  · intro f b n
    unfold brandedPipeline writeBranded
    rw [foldl_bStep_table]
  · intro f b n
    unfold brandedPipeline writeBranded
    rw [foldl_bStep_inserted]
    simp

/-- Witness for C4 amended at concrete inputs. -/
theorem c4_amended_witness :
    ([(⟨"X", "D1", none, none, none, none, 0, 0, 0, 0, 0, 0, 0, 0⟩ : BRow),
      (⟨"X", "D2", none, none, none, none, 0, 0, 0, 0, 0, 0, 0, 0⟩ : BRow)].find?
        (fun x => decide (x.barcode
          = (⟨"X", "D1", none, none, none, none, 0, 0, 0, 0, 0, 0, 0, 0⟩ : BRow).barcode))
      = some ⟨"X", "D1", none, none, none, none, 0, 0, 0, 0, 0, 0, 0, 0⟩) ∧
    ((brandedPipeline [⟨"1", "branded_food", "Food"⟩]
        [⟨"1", "X", "A", "", "", none, "", ""⟩]
        [⟨"1", "1008", some 1008, "5", some 5⟩]).inserted
      = ((buildBrandedInfo [⟨"1", "X", "A", "", "", none, "", ""⟩]).filterMap
          (acceptedRow (buildFoodDescriptions [⟨"1", "branded_food", "Food"⟩])
            (buildNutrients
              ((buildBrandedInfo [⟨"1", "X", "A", "", "", none, "", ""⟩]).map Prod.fst)
              [⟨"1", "1008", some 1008, "5", some 5⟩]))).length) :=
  ⟨c4_amended_first_wins.1
     [⟨"X", "D1", none, none, none, none, 0, 0, 0, 0, 0, 0, 0, 0⟩,
      ⟨"X", "D2", none, none, none, none, 0, 0, 0, 0, 0, 0, 0, 0⟩] _ (by decide),
   c4_amended_first_wins.2.2 _ _ _⟩

/-- Claim C5: the streaming join discards rows whose key is outside the
pre-computed target set without any effect on the profiles (running on the
member-filtered stream gives the same result), and within a key the final
value of a canonical field is the projected amount carried by the last row
supplying that (key, field) pair in source order — for both the branded
and reference pipelines. -/
theorem c5_streaming_join :
    (∀ (targets : List String) (rows : List BNutRow),
      buildNutrients targets (rows.filter (fun r => targets.contains r.fdc_id))
        = buildNutrients targets rows) ∧
    (∀ (food_ids : List Int) (rows : List UNutRow),
      uLoadNutrients food_ids (rows.filter (fun r => food_ids.contains r.fdc_id))
        = uLoadNutrients food_ids rows) ∧
    (∀ (targets : List String) (rows1 rows2 : List BNutRow) (row : BNutRow)
       (fdc col : String),
      suppliesField row fdc col = true → targets.contains fdc = true →
      (∀ r ∈ rows2, suppliesField r fdc col = false) →
      dictGet2 (buildNutrients targets (rows1 ++ row :: rows2)) fdc col
        = some (brandedAmount row)) ∧
    (∀ (food_ids : List Int) (rows1 rows2 : List UNutRow) (row : UNutRow)
       (fdc : Int) (field : String) (x : Rat),
      uSupplies row fdc field = true → row.amountF = some x →
      food_ids.contains fdc = true →
      (∀ r ∈ rows2, uSupplies r fdc field = false) →
      dictGet2 (uLoadNutrients food_ids (rows1 ++ row :: rows2)) fdc field
        = some (round4 x)) := by
  refine ⟨?_, ?_, ?_, ?_⟩
  · intro targets rows
    exact foldl_stepNutrients_filter targets rows []
  · intro food_ids rows
    exact foldl_uNutStep_filter food_ids rows []
  · intro targets rows1 rows2 row fdc col hs ht h2
    exact buildNutrients_last_value targets rows1 rows2 row fdc col hs ht h2
  · intro food_ids rows1 rows2 row fdc field x hs hx ht h2
    exact uLoadNutrients_last_value food_ids rows1 rows2 row fdc field x hs hx ht h2

/-- Witness for C5 at concrete inputs: a non-member row has no effect, and a
later row overwrites an earlier one on the same (key, field). -/
theorem c5_witness :
    (buildNutrients ["1"]
        ([⟨"2", "1008", some 1008, "7", some 7⟩,
          ⟨"1", "1008", some 1008, "5", some 5⟩].filter
          (fun r => List.contains ["1"] r.fdc_id))
      = buildNutrients ["1"]
          [⟨"2", "1008", some 1008, "7", some 7⟩,
           ⟨"1", "1008", some 1008, "5", some 5⟩]) ∧
    (dictGet2 (buildNutrients ["1"]
        ([⟨"1", "1008", some 1008, "4", some 4⟩]
          ++ (⟨"1", "1008", some 1008, "5", some 5⟩ : BNutRow) :: []))
        "1" "calories"
      = some (brandedAmount ⟨"1", "1008", some 1008, "5", some 5⟩)) ∧
    (dictGet2 (uLoadNutrients [1]
        ([⟨1, 1008, "4", some 4⟩] ++ (⟨1, 1008, "3", some 3⟩ : UNutRow) :: []))
        1 "calories"
      = some (round4 3)) :=
  ⟨c5_streaming_join.1 ["1"] _,
   c5_streaming_join.2.2.1 ["1"] [⟨"1", "1008", some 1008, "4", some 4⟩] []
     ⟨"1", "1008", some 1008, "5", some 5⟩ "1" "calories" (by decide) (by decide)
     (fun r hr => absurd hr (List.not_mem_nil r)),
   c5_streaming_join.2.2.2 [1] [⟨1, 1008, "4", some 4⟩] [] ⟨1, 1008, "3", some 3⟩
     1 "calories" 3 (by decide) rfl (by decide)
     (fun r hr => absurd hr (List.not_mem_nil r))⟩

/-- Counterexample to C6 as stated: the branded pipeline stores the parsed
amount unrounded — for the amount `0.00005` the recorded value is `1/20000`,
which differs from its 4-decimal rounding `0`. -/
theorem c6_counterexample :
    dictGet2 (buildNutrients ["1"]
        [⟨"1", "1008", some 1008, "0.00005", some (mkRat 1 20000)⟩]) "1" "calories"
      = some (mkRat 1 20000) ∧
    round4 (mkRat 1 20000) ≠ mkRat 1 20000 := ⟨by decide, by decide⟩

/-- Claim C6 amended: only the reference pipeline rounds accepted amounts,
recording `round(x, 4)` (deterministic round-half-to-even); the branded
pipeline records the parsed amount itself, unrounded, and the survey
pipeline likewise records `amount or 0` into its nutrient map unrounded.
All are pure functions of the input, so repeated runs agree. -/
theorem c6_amended_rounding :
    (∀ (food_ids : List Int) (m : List (Int × List (String × Rat)))
       (row : UNutRow) (field : String) (x : Rat),
      food_ids.contains row.fdc_id = true →
      nutrientFieldU row.nutrient_id = some field →
      row.amount.isEmpty = false → row.amountF = some x →
      dictGet2 (uNutStep food_ids m row) row.fdc_id field = some (round4 x)) ∧
    (∀ (targets : List String) (m : List (String × List (String × Rat)))
       (row : BNutRow) (nid : Int) (col : String) (x : Rat),
      targets.contains row.fdc_id = true → row.nutrient_idI = some nid →
      nutrientLookup nid = some col → row.amount.isEmpty = false →
      row.amountF = some x →
      dictGet2 (stepNutrients targets m row) row.fdc_id col = some x) ∧
    (∀ (ns : List FNutrient) (n : FNutrient) (nid : Int),
      n.nid = some nid → nid ≠ 0 → fnddsHasCol nid = true →
      dictGet (buildNutrientMap (ns ++ [n])) nid = some (n.amount.getD 0)) := by
  refine ⟨?_, ?_, ?_⟩
  · intro food_ids m row field x ht hl hne hx
    exact uNutStep_writes food_ids m row field x ht hl hne hx
  · intro targets m row nid col x ht hn hl hne hx
    rw [stepNutrients_writes targets m row nid col ht hn hl]
    unfold brandedAmount
    rw [hne, hx]
    simp
  · intro ns n nid hn h0 hc
    exact buildNutrientMap_append ns n nid hn h0 hc

/-- Witness for C6 amended at concrete rows of all three pipelines. -/
theorem c6_amended_witness :
    dictGet2 (uNutStep [1] [] ⟨1, 1008, "2.00005", some (mkRat 200005 100000)⟩)
        1 "calories" = some (round4 (mkRat 200005 100000)) ∧
    dictGet2 (stepNutrients ["1"] [] ⟨"1", "1008", some 1008, "2.00005",
        some (mkRat 200005 100000)⟩) "1" "calories" = some (mkRat 200005 100000) ∧
    dictGet (buildNutrientMap ([] ++ [⟨some 1008, some (mkRat 200005 100000)⟩]))
        1008 = some (mkRat 200005 100000) :=
  ⟨c6_amended_rounding.1 [1] [] ⟨1, 1008, "2.00005", some (mkRat 200005 100000)⟩
     "calories" (mkRat 200005 100000) (by decide) (by decide) (by decide) rfl,
   c6_amended_rounding.2.1 ["1"] [] ⟨"1", "1008", some 1008, "2.00005",
     some (mkRat 200005 100000)⟩ 1008 "calories" (mkRat 200005 100000)
     (by decide) rfl (by decide) (by decide) rfl,
   c6_amended_rounding.2.2 [] ⟨some 1008, some (mkRat 200005 100000)⟩ 1008
     rfl (by decide) (by decide)⟩

/-- Counterexample to C7 as stated: a portion with multiplier quantity "2"
and description "slice" yields the output description "2.0 slice" (Python
formats the parsed float `2.0` into the prefix), not "2 slice". -/
theorem c7_counterexample :
    uLoadPortions [1] [⟨1, "slice", "", "10", some 10, "2", some 2⟩]
      = [(1, [⟨"2.0 slice", 10⟩])] ∧ "2.0 slice" ≠ "2 slice" :=
  ⟨by decide, by decide⟩

/-- Claim C7 amended: for an accepted portion row, a multiplier that parses
to other than exactly 1 is prefixed in its float formatting ("2.0 slice");
a multiplier of exactly 1 (including an unparseable one, which defaults to
1.0) leaves the description unchanged; the result is stripped, and the
stored gram weight is the source gram weight rounded to one decimal. -/
theorem c7_amended_portion_format :
    ∀ (food_ids : List Int) (m : List (Int × List UPortion)) (row : UPortionRow)
      (grams : Rat) (desc : String),
      desc = (if row.modifier.isEmpty then row.portion_description else row.modifier) →
      food_ids.contains row.fdc_id = true →
      row.gram_weight.isEmpty = false → desc.isEmpty = false →
      row.gram_weightF = some grams →
      uPortionStep food_ids m row = dictInsert m row.fdc_id
        ((dictGet m row.fdc_id).getD [] ++
         [⟨pyStrip (if row.amountF.getD 1 = 1 then desc
            else pyFloatRepr (row.amountF.getD 1) ++ " " ++ desc),
           round1 grams⟩]) := by
  intro food_ids m row grams desc hd ht hgs hds hg
  exact uPortionStep_accept food_ids m row grams desc hd ht hgs hds hg

/-- Witness for C7 amended at the quantity-2 slice row. -/
theorem c7_amended_witness :
    uPortionStep [1] [] ⟨1, "slice", "", "10", some 10, "2", some 2⟩
      = dictInsert ([] : List (Int × List UPortion)) (1 : Int)
          [⟨"2.0 slice", round1 10⟩] :=
  c7_amended_portion_format [1] [] ⟨1, "slice", "", "10", some 10, "2", some 2⟩
    10 "slice" (by decide) (by decide) (by decide) (by decide) rfl

/-- Counterexample to C8 as stated: the reference pipeline accepts a portion
row whose gram-weight cell "0.0" is non-empty and parses, so the final JSON
array carries a portion with gram weight 0, which is not strictly positive. -/
theorem c8_counterexample :
    usdaPipeline [⟨1, "Food", none⟩] [] [⟨1, 1008, "3", some 3⟩]
        [⟨1, "slice", "", "0.0", some 0, "1", some 1⟩]
      = [⟨1, "Food", none, [("calories", 3)], some [⟨"slice", 0⟩]⟩] ∧
    ¬((0 : Rat) < 0) := ⟨by decide, by decide⟩

/-- Claim C8 amended: the positivity and non-emptiness invariant holds for
the survey store, whose insert is guarded by `gram_weight > 0 and
portion_desc`; the reference pipeline only requires the raw cells to be
non-empty and the gram weight to parse, so its output may carry
non-positive gram weights. -/
theorem c8_amended_portions :
    ∀ (foods : List FFood) (res : FState), fnddsRun foods = Except.ok res →
      ∀ p ∈ res.portions, 0 < p.gram_weight ∧ p.description.isEmpty = false := by
  intro foods res h
  exact fnddsRunAux_inv
    (fun st => ∀ p ∈ st.portions, 0 < p.gram_weight ∧ p.description.isEmpty = false)
    fnddsStep_portions_inv foods ⟨[], [], [], 0, 0⟩ res
    (fun p hp => absurd hp (List.not_mem_nil p)) h

/-- Witness for C8 amended at a concrete survey run with one portion. -/
theorem c8_amended_witness :
    0 < (⟨1, "1 medium", 182⟩ : PortionsRow).gram_weight ∧
      (⟨1, "1 medium", 182⟩ : PortionsRow).description.isEmpty = false :=
  c8_amended_portions [⟨some 1, "A", [⟨some 1008, some 2⟩], [⟨some 182, "1 medium"⟩]⟩]
    ⟨[⟨1, "A", 2 :: List.replicate 31 0⟩], [⟨1, "1 medium", 182⟩], [("A", 1)], 1, 1⟩
    rfl ⟨1, "1 medium", 182⟩ (by decide)

/-- Claim C9: with any required input source absent, both converters end
with exit status 1 and a message identifying the missing source, and the
pre-existing output artifact is left exactly as it was (the output location
is only replaced on the all-inputs-present path). -/
theorem c9_missing_input :
    (∀ (dataDir : String) (food : Option (List BFoodRow))
       (branded : Option (List BBrandRow)) (nut : Option (List BNutRow))
       (old : Option BState),
      food = none ∨ branded = none ∨ nut = none →
      (brandedMain dataDir food branded nut old).exitCode = 1 ∧
      (brandedMain dataDir food branded nut old).output = old ∧
      ∃ name, ((name = "food.csv" ∧ food = none) ∨
          (name = "branded_food.csv" ∧ branded = none) ∨
          (name = "food_nutrient.csv" ∧ nut = none)) ∧
        (brandedMain dataDir food branded nut old).message
          = some ("ERROR: " ++ pathJoin dataDir name ++ " not found")) ∧
    (∀ (old : Option FState),
      (fnddsMain none old).exitCode = 1 ∧ (fnddsMain none old).output = old ∧
      (fnddsMain none old).message = some "FileNotFoundError: surveyDownload.json") := by
  refine ⟨?_, ?_⟩
  · intro dataDir food branded nut old h
    cases food with
    | none =>
      exact ⟨rfl, rfl, "food.csv", Or.inl ⟨rfl, rfl⟩, rfl⟩
    | some fv =>
      cases branded with
      | none =>
        exact ⟨rfl, rfl, "branded_food.csv", Or.inr (Or.inl ⟨rfl, rfl⟩), rfl⟩
      | some bv =>
        cases nut with
        | none =>
          exact ⟨rfl, rfl, "food_nutrient.csv", Or.inr (Or.inr ⟨rfl, rfl⟩), rfl⟩
        | some nv =>
          rcases h with h1 | h1 | h1 <;> cases h1
  · intro old
    exact ⟨rfl, rfl, rfl⟩

/-- Witness for C9 with `food.csv` missing and a pre-existing artifact. -/
theorem c9_witness :
    (brandedMain "." none (some []) (some [])
        (some ⟨[], 0, 0, 0⟩)).exitCode = 1 ∧
    (brandedMain "." none (some []) (some [])
        (some ⟨[], 0, 0, 0⟩)).output = some ⟨[], 0, 0, 0⟩ ∧
    ∃ name, ((name = "food.csv" ∧ (none : Option (List BFoodRow)) = none) ∨
        (name = "branded_food.csv" ∧ (some [] : Option (List BBrandRow)) = none) ∨
        (name = "food_nutrient.csv" ∧ (some [] : Option (List BNutRow)) = none)) ∧
      (brandedMain "." none (some []) (some []) (some ⟨[], 0, 0, 0⟩)).message
        = some ("ERROR: " ++ pathJoin "." name ++ " not found") :=
  c9_missing_input.1 "." none (some []) (some []) (some ⟨[], 0, 0, 0⟩) (Or.inl rfl)

/-- Claim C10: in the branded pipeline, when the branded product table has
several rows with the same fdc id, the joined attribute record of that fdc
id is the one of the last such row with a non-blank barcode (last-write-wins
in `branded_info`), and the whole write/dedup phase consumes exactly this
joined map, so the overwrite happens before barcode deduplication. -/
theorem c10_info_last_write_wins :
    (∀ (rows : List BBrandRow) (row : BBrandRow) (info : BrandedInfo),
      projectBrandRow row = some info →
      dictGet (buildBrandedInfo (rows ++ [row])) row.fdc_id = some info) ∧
    (∀ (f : List BFoodRow) (b : List BBrandRow) (n : List BNutRow),
      brandedPipeline f b n
        = writeBranded (buildFoodDescriptions f) (buildBrandedInfo b)
            (buildNutrients ((buildBrandedInfo b).map Prod.fst) n)) := by
  refine ⟨?_, ?_⟩
  · intro rows row info h
    exact buildBrandedInfo_append rows row info h
  · intro f b n
    rfl

/-- Witness for C10: the second row with fdc id "1" overwrites the first. -/
theorem c10_witness :
    dictGet (buildBrandedInfo ([⟨"1", "X", "A", "", "", none, "", ""⟩]
        ++ [⟨"1", "X", "B", "", "", none, "", ""⟩])) "1"
      = some ⟨"X", "B", none, "", ""⟩ :=
  c10_info_last_write_wins.1 [⟨"1", "X", "A", "", "", none, "", ""⟩]
    ⟨"1", "X", "B", "", "", none, "", ""⟩ ⟨"X", "B", none, "", ""⟩ (by decide)
